import Mathlib

/-!
Shallow embedding of the dexterous-hand-dashboard core: hand-type constants
(`define/hands.go`), abstract commands (`device/commands.go`), wire messages
(`communication/communicator.go`), the animation engine
(`device/pose_executor.go`), the device factory, and the L10 device model.

Go goroutine/lock concurrency is embedded as explicit sequential state
passing: mutexes become nothing (the embedded operations are the critical
sections they guard), `chan struct{}` cancellation channels become `Nat`
identity tokens (a fresh token is allocated per `make(chan struct{})`, and
`close` records the token in a `closed` list), `time.Now()` becomes an
explicit `now : Nat` argument, and the `Communicator` becomes an explicit
oracle `RawMessage → Option String` (`none` = send succeeded, `some e` =
send failed with error text `e`).  Go byte values are `Nat` (kept in
[0,255] by the code under scrutiny), Go `error` is `Option String` /
`Except String` carrying the `fmt.Errorf` text.
-/

namespace Hands

/-! ## define/hands.go -/

/-- Go `type HandType int` with constants `HAND_TYPE_LEFT = 0x28`,
`HAND_TYPE_RIGHT = 0x27`, `HAND_TYPE_UNKNOWN = 0x00`. -/
inductive HandType where
  | LEFT
  | RIGHT
  | UNKNOWN
  deriving DecidableEq, Repr

/-- The numeric value of the Go `HandType` constant, i.e. what
`uint32(h.handType)` yields. -/
def HandType.val : HandType → Nat
  | .LEFT => 0x28
  | .RIGHT => 0x27
  | .UNKNOWN => 0x00

/-! ## device/commands.go — abstract commands -/

/-- A Go `device.Command` value: the interface exposes `Type()`,
`Payload()` and `TargetComponent()`, and all three concrete command
structs are just records of these. -/
structure Command where
  type : String
  payload : List Nat
  targetComponent : String
  deriving DecidableEq, Repr

/-- Go `NewFingerPoseCommand(fingerID, poseData)`: type "SetFingerPose",
target `"finger_" + fingerID`. -/
def NewFingerPoseCommand (fingerID : String) (poseData : List Nat) : Command :=
  { type := "SetFingerPose", payload := poseData, targetComponent := "finger_" ++ fingerID }

/-- Go `NewPalmPoseCommand(poseData)`: type "SetPalmPose", target "palm". -/
def NewPalmPoseCommand (poseData : List Nat) : Command :=
  { type := "SetPalmPose", payload := poseData, targetComponent := "palm" }

/-- Go `NewGenericCommand(cmdType, payload, targetComp)`. -/
def NewGenericCommand (cmdType : String) (payload : List Nat) (targetComp : String) : Command :=
  { type := cmdType, payload := payload, targetComponent := targetComp }

/-! ## communication/communicator.go — wire message -/

/-- Go `communication.RawMessage`: `{Interface string; ID uint32; Data []byte}`. -/
structure RawMessage where
  Interface : String
  ID : Nat
  Data : List Nat
  deriving DecidableEq, Repr

/-! ## device/device.go — device status -/

/-- Go `device.DeviceStatus`.  `LastUpdate : time.Time` is embedded as a
`Nat` timestamp. -/
structure DeviceStatus where
  IsConnected : Bool
  IsActive : Bool
  LastUpdate : Nat
  ErrorCount : Nat
  LastError : String
  deriving DecidableEq, Repr

/-! ## device/pose_executor.go — the animation engine

The engine state guarded by `engineMutex` is `(isRunning, current,
stopChan)`; the registry guarded by `registerMutex` is `animations`.
A channel identity is a `Nat` token; `make(chan struct{})` hands out
`nextChan` and bumps it, so every channel ever allocated has a distinct
token; `close(ch)` conses the token onto `closed`. -/

/-- Go `defaultAnimationSpeedMs = 500`. -/
def defaultAnimationSpeedMs : Int := 500

/-- The `AnimationEngine` struct of `device/pose_executor.go`, with the
executor dropped (pose-reset calls are counted by the operations instead)
and animations represented by their registered names. -/
structure AnimationEngine where
  animations : List String
  stopChan : Nat
  current : String
  isRunning : Bool
  nextChan : Nat
  closed : List Nat
  deriving DecidableEq, Repr

/-- Go `Start(name, speedMs)` (the part under `engineMutex`): unknown name
fails; otherwise a running animation's channel is closed (not awaited), a
fresh channel is allocated and recorded, `isRunning`/`current` are set,
and the goroutine is launched with the fresh channel and the validated
speed — returned here as `(channel token, actual speed)`. -/
def AnimationEngine.Start (e : AnimationEngine) (name : String) (speedMs : Int) :
    AnimationEngine × Except String (Nat × Int) :=
  if e.animations.contains name = false then
    (e, Except.error ("动画 " ++ name ++ " 未注册"))
  else
    let e1 := if e.isRunning then { e with closed := e.stopChan :: e.closed } else e
    let newChan := e1.nextChan
    let actualSpeedMs := if speedMs ≤ 0 then defaultAnimationSpeedMs else speedMs
    ({ e1 with stopChan := newChan, nextChan := newChan + 1,
               isRunning := true, current := name },
     Except.ok (newChan, actualSpeedMs))

/-- Go `Stop()`: no-op when nothing is running (returns nil either way);
otherwise closes the active channel and immediately clears
`isRunning`/`current` without waiting for the goroutine. -/
def AnimationEngine.Stop (e : AnimationEngine) : AnimationEngine :=
  if e.isRunning = false then e
  else { e with closed := e.stopChan :: e.closed, isRunning := false, current := "" }

/-- Go `handleLoopExit(stopChan, deviceName, animName)`: under
`engineMutex`, compare the task's channel identity with the engine's
current one.  If identical the task still owns the engine: clear
`isRunning`/`current` and call `executor.ResetPose()` once (its error is
only logged).  If different, exit quietly.  Returns the new engine state
and the number of `ResetPose` calls made. -/
def AnimationEngine.handleLoopExit (e : AnimationEngine) (stopChan : Nat)
    (deviceName animName : String) : AnimationEngine × Nat :=
  if stopChan = e.stopChan then
    ({ e with isRunning := false, current := "" }, 1)
  else
    (e, 0)

/-- One cycle's worth of the Go `anim.Run` outcome. -/
inductive RunOutcome where
  | ok
  | err (msg : String)
  deriving DecidableEq

/-- Oracle for what the animation goroutine observes at iteration `i` of
its loop: whether the `select` at the loop head sees the stop channel
closed, what `anim.Run` returns, and whether the post-`Run` `select` sees
the stop channel closed. -/
structure LoopEnv where
  stopBefore : Nat → Bool
  runOutcome : Nat → RunOutcome
  stopAfter : Nat → Bool

/-- Whether the Go `for`/`select` loop of `runAnimationLoop` exits within
`fuel` iterations, starting at iteration `i`: it exits on a stop signal at
the loop head, on a `Run` error, or on a stop signal observed right after
`Run` returns; otherwise it iterates again. -/
def loopExits (env : LoopEnv) : Nat → Nat → Bool
  | 0, _ => false
  | fuel + 1, i =>
    if env.stopBefore i then true
    else match env.runOutcome i with
      | .err _ => true
      | .ok => if env.stopAfter i then true else loopExits env fuel (i + 1)

/-- Go `runAnimationLoop(anim, stopChan, speedMs)`: loops until a stop
signal or a `Run` error, then runs the deferred `handleLoopExit` with the
channel the goroutine was started with, against the engine state the
handler observes under `engineMutex` at exit time (`eAtExit`).  `none`
means the loop is still running after `fuel` iterations. -/
def AnimationEngine.runAnimationLoop (env : LoopEnv) (fuel : Nat)
    (eAtExit : AnimationEngine) (stopChan : Nat) (deviceName animName : String) :
    Option (AnimationEngine × Nat) :=
  if loopExits env fuel 0 then
    some (eAtExit.handleLoopExit stopChan deviceName animName)
  else
    none

/-! ## Device factory (part_000) -/

/-- Go `DeviceFactory`: `constructors map[string]func(config) (Device, error)`,
embedded as an association list keyed by model name (`Cfg`, `Dev`
abstract the open config bag and the `Device` interface). -/
structure DeviceFactory (Cfg Dev : Type) where
  constructors : List (String × (Cfg → Except String Dev))

/-- Go `RegisterDeviceType(modelName, constructor)`: map insert
(newest binding shadows an older one under `List.lookup`). -/
def RegisterDeviceType {Cfg Dev : Type} (f : DeviceFactory Cfg Dev)
    (modelName : String) (constructor : Cfg → Except String Dev) :
    DeviceFactory Cfg Dev :=
  { constructors := (modelName, constructor) :: f.constructors }

/-- Go `CreateDevice(modelName, config)`: look the constructor up; an
unregistered tag yields the unknown-model error; otherwise the
constructor is invoked on the config.  The factory value is returned
unchanged alongside the result (the Go function only reads the map). -/
def CreateDevice {Cfg Dev : Type} (f : DeviceFactory Cfg Dev)
    (modelName : String) (config : Cfg) :
    DeviceFactory Cfg Dev × Except String Dev :=
  match f.constructors.lookup modelName with
  | none => (f, Except.error ("未知的设备型号: " ++ modelName))
  | some constructor => (f, constructor config)

/-- Go `GetSupportedModels()`: the registered model tags. -/
def GetSupportedModels {Cfg Dev : Type} (f : DeviceFactory Cfg Dev) : List String :=
  f.constructors.map Prod.fst

/-! ## The L10 device model (part_007)

The mutable fields of `L10Hand` that the embedded operations touch.  The
`Communicator` is passed to `ExecuteCommand` as an oracle
`sendResult : RawMessage → Option String`, and each operation reports the
list of messages it handed to `Communicator.SendMessage`. -/

/-- The `L10Hand` struct: identity, model tag, current hand side, CAN
interface name and device status. -/
structure L10Hand where
  id : String
  model : String
  handType : HandType
  canInterface : String
  status : DeviceStatus
  deriving DecidableEq, Repr

/-- Result of one device operation: the device state after the call, the
messages sent through the Communicator during the call (in order), and
the Go return value (`none` = nil error). -/
structure ExecResult where
  hand : L10Hand
  sent : List RawMessage
  result : Option String
  deriving DecidableEq, Repr

/-- Go `perturb(base, delta)`: offset `rand.IntN(2*delta+1) - delta`
added to `base`, clamped to [0, 255].  The random draw is the explicit
argument `r`; `rand.IntN(2*delta+1)` guarantees a value in
`[0, 2*delta]`, which `r % (2*delta+1)` reproduces for arbitrary `r`. -/
def perturb (base delta r : Nat) : Nat :=
  if ((base : Int) + (((r % (2 * delta + 1) : Nat) : Int) - (delta : Int))) < 0 then 0
  else if ((base : Int) + (((r % (2 * delta + 1) : Nat) : Int) - (delta : Int))) > 255 then 255
  else ((base : Int) + (((r % (2 * delta + 1) : Nat) : Int) - (delta : Int))).toNat

/-- Go `(h *L10Hand) SetHandType(handType)`: reject anything other than
left or right, else store the new hand side. -/
def L10Hand.SetHandType (h : L10Hand) (handType : HandType) : Except String L10Hand :=
  if handType ≠ HandType.LEFT ∧ handType ≠ HandType.RIGHT then
    Except.error ("无效的手型：" ++ toString handType.val)
  else
    Except.ok { h with handType := handType }

/-- Go `(h *L10Hand) commandToRawMessage(cmd)`: the CAN id is
`uint32(h.handType)` read at encode time; "SetFingerPose" data is
`0x01` prepended to the payload and "SetPalmPose" data is `0x04`
prepended, each rejected when longer than the 8-byte CAN limit; any
other command type is unsupported. -/
def L10Hand.commandToRawMessage (h : L10Hand) (cmd : Command) : Except String RawMessage :=
  if cmd.type = "SetFingerPose" then
    if (0x01 :: cmd.payload).length > 8 then Except.error "手指姿态数据过长"
    else Except.ok { Interface := h.canInterface, ID := h.handType.val, Data := 0x01 :: cmd.payload }
  else if cmd.type = "SetPalmPose" then
    if (0x04 :: cmd.payload).length > 8 then Except.error "手掌姿态数据过长"
    else Except.ok { Interface := h.canInterface, ID := h.handType.val, Data := 0x04 :: cmd.payload }
  else
    Except.error ("L10 不支持的指令类型: " ++ cmd.type)

/-- Go `(h *L10Hand) ExecuteCommand(cmd)`: require connected and active;
encode; on encode failure bump `ErrorCount`, record `LastError`, return
the wrapped error without touching the Communicator; otherwise send, and
on send failure bump `ErrorCount`, record `LastError`, return the
wrapped error; on success stamp `LastUpdate` with the current time. -/
def L10Hand.ExecuteCommand (h : L10Hand) (cmd : Command)
    (sendResult : RawMessage → Option String) (now : Nat) : ExecResult :=
  if !h.status.IsConnected || !h.status.IsActive then
    { hand := h, sent := [], result := some ("设备 " ++ h.id ++ " 未连接或未激活") }
  else
    match h.commandToRawMessage cmd with
    | Except.error e =>
      { hand := { h with status :=
          { h.status with ErrorCount := h.status.ErrorCount + 1, LastError := e } },
        sent := [],
        result := some ("转换指令失败：" ++ e) }
    | Except.ok rawMsg =>
      match sendResult rawMsg with
      | some e =>
        { hand := { h with status :=
            { h.status with ErrorCount := h.status.ErrorCount + 1, LastError := e } },
          sent := [rawMsg],
          result := some ("发送指令失败：" ++ e) }
      | none =>
        { hand := { h with status := { h.status with LastUpdate := now } },
          sent := [rawMsg],
          result := none }

/-- Go `(h *L10Hand) SetFingerPose(pose)`: require exactly 6 bytes,
perturb each byte with `perturb(v, 5)` (random draws `rs`, one per
byte), wrap as a finger-pose command and execute it. -/
def L10Hand.SetFingerPose (h : L10Hand) (pose : List Nat) (rs : List Nat)
    (sendResult : RawMessage → Option String) (now : Nat) : ExecResult :=
  if pose.length ≠ 6 then
    { hand := h, sent := [], result := some "无效的手指姿态数据长度，需要 6 个字节" }
  else
    h.ExecuteCommand
      (NewFingerPoseCommand "all" (List.zipWith (fun v r => perturb v 5 r) pose rs))
      sendResult now

/-- Go `(h *L10Hand) SetPalmPose(pose)`: require exactly 4 bytes,
perturb each byte with `perturb(v, 8)`, wrap as a palm-pose command and
execute it. -/
def L10Hand.SetPalmPose (h : L10Hand) (pose : List Nat) (rs : List Nat)
    (sendResult : RawMessage → Option String) (now : Nat) : ExecResult :=
  if pose.length ≠ 4 then
    { hand := h, sent := [], result := some "无效的手掌姿态数据长度，需要 4 个字节" }
  else
    h.ExecuteCommand
      (NewPalmPoseCommand (List.zipWith (fun v r => perturb v 8 r) pose rs))
      sendResult now

/-! ## Concrete sample values used to evaluate the definitions -/

/-- A loop environment whose goroutine observes the stop signal at the
very first loop-head `select`. -/
def envStopNow : LoopEnv :=
  { stopBefore := fun _ => true, runOutcome := fun _ => RunOutcome.ok, stopAfter := fun _ => false }

/-- An engine running the "wave" animation on channel token 7. -/
def engineSample : AnimationEngine :=
  { animations := ["wave"], stopChan := 7, current := "wave", isRunning := true,
    nextChan := 8, closed := [] }

/-- An engine with nothing running. -/
def engineIdle : AnimationEngine :=
  { animations := ["wave"], stopChan := 3, current := "", isRunning := false,
    nextChan := 4, closed := [] }

/-- A connected, active L10 right hand. -/
def handConn : L10Hand :=
  { id := "h1", model := "L10", handType := HandType.RIGHT, canInterface := "can0",
    status := { IsConnected := true, IsActive := true, LastUpdate := 0,
                ErrorCount := 0, LastError := "" } }

/-- The same hand, disconnected. -/
def handDisc : L10Hand :=
  { id := "h1", model := "L10", handType := HandType.RIGHT, canInterface := "can0",
    status := { IsConnected := false, IsActive := false, LastUpdate := 0,
                ErrorCount := 0, LastError := "" } }

/-- `handConn` after `SetHandType(HAND_TYPE_LEFT)`. -/
def handLeftSample : L10Hand :=
  { id := "h1", model := "L10", handType := HandType.LEFT, canInterface := "can0",
    status := { IsConnected := true, IsActive := true, LastUpdate := 0,
                ErrorCount := 0, LastError := "" } }

/-- A Communicator oracle whose send always succeeds. -/
def sendOk : RawMessage → Option String := fun _ => none

/-- A Communicator oracle whose send always fails with "boom". -/
def sendFailFn : RawMessage → Option String := fun _ => some "boom"

/-- A half-open finger pose command (bytes 0x40). -/
def fingerCmdSample : Command := NewFingerPoseCommand "all" [64, 64, 64, 64, 64, 64]

/-- A command of a type the L10 encoder does not support. -/
def badCmd : Command := NewGenericCommand "Nope" [] "x"

/-- The wire message the right hand encodes for `fingerCmdSample`. -/
def msgRight : RawMessage := { Interface := "can0", ID := 0x27, Data := [0x01, 64, 64, 64, 64, 64, 64] }

/-- The wire message the left hand encodes for `fingerCmdSample`. -/
def msgLeft : RawMessage := { Interface := "can0", ID := 0x28, Data := [0x01, 64, 64, 64, 64, 64, 64] }

/-! ## Helper lemmas -/

/-- `Stop` always leaves the engine not running. -/
lemma Stop_isRunning (e : AnimationEngine) : e.Stop.isRunning = false := by
  unfold AnimationEngine.Stop
  split
  · assumption
  · rfl

/-- `Stop` on an engine with nothing running changes nothing. -/
lemma Stop_of_not_running (e : AnimationEngine) (h : e.isRunning = false) : e.Stop = e := by
  unfold AnimationEngine.Stop
  rw [if_pos h]

/-- `ExecuteCommand` on a device that is not connected or not active
rejects with the not-ready error, sends nothing and keeps the state. -/
lemma ExecuteCommand_not_ready (h : L10Hand) (cmd : Command)
    (sr : RawMessage → Option String) (now : Nat)
    (hne : h.status.IsConnected = false ∨ h.status.IsActive = false) :
    h.ExecuteCommand cmd sr now =
      { hand := h, sent := [], result := some ("设备 " ++ h.id ++ " 未连接或未激活") } := by
  unfold L10Hand.ExecuteCommand
  rcases hne with hne | hne <;> rw [hne] <;> simp

/-- `ExecuteCommand` when encoding fails: bump the error count, record
the error, send nothing, return the wrapped error. -/
lemma ExecuteCommand_encode_error (h : L10Hand) (cmd : Command)
    (sr : RawMessage → Option String) (now : Nat) (e : String)
    (hc : h.status.IsConnected = true) (ha : h.status.IsActive = true)
    (henc : h.commandToRawMessage cmd = Except.error e) :
    h.ExecuteCommand cmd sr now =
      { hand := { h with status :=
          { h.status with ErrorCount := h.status.ErrorCount + 1, LastError := e } },
        sent := [], result := some ("转换指令失败：" ++ e) } := by
  unfold L10Hand.ExecuteCommand
  rw [hc, ha, henc]
  simp

/-- `ExecuteCommand` when encoding succeeds but the send fails. -/
lemma ExecuteCommand_send_fail (h : L10Hand) (cmd : Command)
    (sr : RawMessage → Option String) (now : Nat) (msg : RawMessage) (e : String)
    (hc : h.status.IsConnected = true) (ha : h.status.IsActive = true)
    (henc : h.commandToRawMessage cmd = Except.ok msg) (hs : sr msg = some e) :
    h.ExecuteCommand cmd sr now =
      { hand := { h with status :=
          { h.status with ErrorCount := h.status.ErrorCount + 1, LastError := e } },
        sent := [msg], result := some ("发送指令失败：" ++ e) } := by
  unfold L10Hand.ExecuteCommand
  rw [hc, ha, henc]
  simp [hs]

/-- `ExecuteCommand` when encoding succeeds and the send succeeds. -/
lemma ExecuteCommand_send_ok (h : L10Hand) (cmd : Command)
    (sr : RawMessage → Option String) (now : Nat) (msg : RawMessage)
    (hc : h.status.IsConnected = true) (ha : h.status.IsActive = true)
    (henc : h.commandToRawMessage cmd = Except.ok msg) (hs : sr msg = none) :
    h.ExecuteCommand cmd sr now =
      { hand := { h with status := { h.status with LastUpdate := now } },
        sent := [msg], result := none } := by
  unfold L10Hand.ExecuteCommand
  rw [hc, ha, henc]
  simp [hs]

/-- On a ready device, whenever encoding succeeds the encoded message is
handed to the Communicator exactly once, whatever the send outcome. -/
lemma ExecuteCommand_sent_of_ok (h : L10Hand) (cmd : Command)
    (sr : RawMessage → Option String) (now : Nat) (msg : RawMessage)
    (hc : h.status.IsConnected = true) (ha : h.status.IsActive = true)
    (henc : h.commandToRawMessage cmd = Except.ok msg) :
    (h.ExecuteCommand cmd sr now).sent = [msg] := by
  rcases hs : sr msg with _ | e
  · rw [ExecuteCommand_send_ok h cmd sr now msg hc ha henc hs]
  · rw [ExecuteCommand_send_fail h cmd sr now msg e hc ha henc hs]

/-- A successfully encoded message carries the id computed from the
device's hand side at encode time. -/
lemma commandToRawMessage_ok_ID (h : L10Hand) (cmd : Command) (msg : RawMessage)
    (henc : h.commandToRawMessage cmd = Except.ok msg) : msg.ID = h.handType.val := by
  unfold L10Hand.commandToRawMessage at henc
  split at henc
  · split at henc
    · exact Except.noConfusion henc
    · simp only [Except.ok.injEq] at henc
      rw [← henc]
  · split at henc
    · split at henc
      · exact Except.noConfusion henc
      · simp only [Except.ok.injEq] at henc
        rw [← henc]
    · exact Except.noConfusion henc

/-- A successful `SetHandType` stores exactly the requested hand side. -/
lemma SetHandType_ok (h : L10Hand) (ht : HandType) (h2 : L10Hand)
    (hs : h.SetHandType ht = Except.ok h2) : h2.handType = ht := by
  unfold L10Hand.SetHandType at hs
  split at hs
  · exact Except.noConfusion hs
  · simp only [Except.ok.injEq] at hs
    rw [← hs]

/-- `perturb` never leaves [0, 255]. -/
lemma perturb_le_255 (base delta r : Nat) : perturb base delta r ≤ 255 := by
  unfold perturb
  generalize (r % (2 * delta + 1)) = q
  split
  · omega
  · split
    · omega
    · omega

/-- `perturb` never exceeds the input by more than `delta`. -/
lemma perturb_le_add (base delta r : Nat) : perturb base delta r ≤ base + delta := by
  have hm : r % (2 * delta + 1) < 2 * delta + 1 := Nat.mod_lt r (by omega)
  unfold perturb
  revert hm
  generalize (r % (2 * delta + 1)) = q
  intro hm
  split
  · omega
  · split
    · omega
    · omega

/-- For a byte-valued input, `perturb` never falls below the input by
more than `delta`. -/
lemma le_perturb_add (base delta r : Nat) (hb : base ≤ 255) :
    base ≤ perturb base delta r + delta := by
  have hm : r % (2 * delta + 1) < 2 * delta + 1 := Nat.mod_lt r (by omega)
  unfold perturb
  revert hm
  generalize (r % (2 * delta + 1)) = q
  intro hm
  split
  · omega
  · split
    · omega
    · omega

/-- Pointwise: each finger byte produced by the perturbation pass stays
within 5 of its input byte and within [0, 255]. -/
lemma forall2_perturb_close : ∀ (pose rs : List Nat), pose.length = rs.length →
    (∀ b ∈ pose, b ≤ 255) →
    List.Forall₂ (fun p d => d ≤ 255 ∧ d ≤ p + 5 ∧ p ≤ d + 5) pose
      (List.zipWith (fun v r => perturb v 5 r) pose rs)
  | [], [], _, _ => List.Forall₂.nil
  | p :: ps, r :: rest, hlen, hb =>
    List.Forall₂.cons
      ⟨perturb_le_255 p 5 r, perturb_le_add p 5 r,
       le_perturb_add p 5 r (hb p (List.mem_cons_self _ _))⟩
      (forall2_perturb_close ps rest (by simpa using hlen)
        (fun b hb2 => hb b (List.mem_cons_of_mem _ hb2)))
  | [], _ :: _, hlen, _ => by simp at hlen
  | _ :: _, [], hlen, _ => by simp at hlen

/-- A successfully encoded message's data is the model opcode (0x01 for
finger, 0x04 otherwise i.e. palm) prepended to the command payload. -/
lemma commandToRawMessage_ok_Data (h : L10Hand) (cmd : Command) (msg : RawMessage)
    (henc : h.commandToRawMessage cmd = Except.ok msg) :
    msg.Data = (if cmd.type = "SetFingerPose" then 0x01 else 0x04) :: cmd.payload := by
  unfold L10Hand.commandToRawMessage at henc
  by_cases hf : cmd.type = "SetFingerPose"
  · rw [if_pos hf] at henc
    rw [if_pos hf]
    by_cases hl : (0x01 :: cmd.payload).length > 8
    · rw [if_pos hl] at henc
      exact Except.noConfusion henc
    · rw [if_neg hl] at henc
      simp only [Except.ok.injEq] at henc
      rw [← henc]
  · rw [if_neg hf] at henc
    rw [if_neg hf]
    by_cases hpalm : cmd.type = "SetPalmPose"
    · rw [if_pos hpalm] at henc
      by_cases hl : (0x04 :: cmd.payload).length > 8
      · rw [if_pos hl] at henc
        exact Except.noConfusion henc
      · rw [if_neg hl] at henc
        simp only [Except.ok.injEq] at henc
        rw [← henc]
    · rw [if_neg hpalm] at henc
      exact Except.noConfusion henc

/-- The L10 encoder fails exactly on unsupported command types or on an
opcode-prefixed payload longer than the 8-byte CAN frame. -/
lemma commandToRawMessage_isOk_false_iff (h : L10Hand) (cmd : Command) :
    (h.commandToRawMessage cmd).isOk = false ↔
      ((cmd.type ≠ "SetFingerPose" ∧ cmd.type ≠ "SetPalmPose") ∨
        8 < cmd.payload.length + 1) := by
  unfold L10Hand.commandToRawMessage
  by_cases hf : cmd.type = "SetFingerPose"
  · rw [if_pos hf]
    by_cases hl : (0x01 :: cmd.payload).length > 8
    · have hl2 : 8 < cmd.payload.length + 1 := by simpa using hl
      rw [if_pos hl]
      simp [Except.isOk, Except.toBool, hf, hl2]
    · have hl2 : ¬ 8 < cmd.payload.length + 1 := by simpa using hl
      rw [if_neg hl]
      simp [Except.isOk, Except.toBool, hf, hl2]
  · rw [if_neg hf]
    by_cases hpalm : cmd.type = "SetPalmPose"
    · rw [if_pos hpalm]
      by_cases hl : (0x04 :: cmd.payload).length > 8
      · have hl2 : 8 < cmd.payload.length + 1 := by simpa using hl
        rw [if_pos hl]
        simp [Except.isOk, Except.toBool, hpalm, hl2]
      · have hl2 : ¬ 8 < cmd.payload.length + 1 := by simpa using hl
        rw [if_neg hl]
        simp [Except.isOk, Except.toBool, hpalm, hl2]
    · rw [if_neg hpalm]
      simp [Except.isOk, Except.toBool, hf, hpalm]

/-! ## Claim theorems -/

/-- C1: if, when an animation task exits (success, error or
cancellation), the engine's stored cancellation channel differs from the
channel the task was started with, the exit handler leaves the engine
state (running flag, current name, stored channel — the whole state)
unchanged and performs zero `ResetPose` calls. -/
theorem C1_stale_task_exit_untouched (env : LoopEnv) (fuel : Nat)
    (e : AnimationEngine) (stopChan : Nat) (deviceName animName : String)
    (out : AnimationEngine × Nat)
    (hexit : AnimationEngine.runAnimationLoop env fuel e stopChan deviceName animName = some out)
    (hstale : stopChan ≠ e.stopChan) :
    out = (e, 0) := by
  unfold AnimationEngine.runAnimationLoop at hexit
  split at hexit
  · have h2 := Option.some.inj hexit
    rw [← h2]
    unfold AnimationEngine.handleLoopExit
    rw [if_neg hstale]
  · exact Option.noConfusion hexit

/-- C1 witness: a task on channel 5 exits while the engine owns channel
7; the engine state survives untouched and `ResetPose` is not called. -/
theorem C1_witness :
    AnimationEngine.runAnimationLoop envStopNow 1 engineSample 5 "h1" "wave" =
      some (engineSample, 0) := by
  have h := C1_stale_task_exit_untouched envStopNow 1 engineSample 5 "h1" "wave"
    (engineSample.handleLoopExit 5 "h1" "wave") rfl (by decide)
  have h2 : AnimationEngine.runAnimationLoop envStopNow 1 engineSample 5 "h1" "wave" =
      some (engineSample.handleLoopExit 5 "h1" "wave") := rfl
  rw [h2, h]

/-- C2: if an animation task exits (stop signal at the loop head, run
error, or stop signal caught right after a cycle) while the engine still
stores the task's own channel, the exit handler clears the running flag
and the current name and calls `ResetPose` exactly once. -/
theorem C2_owner_exit_resets_once (env : LoopEnv) (fuel : Nat)
    (e : AnimationEngine) (stopChan : Nat) (deviceName animName : String)
    (out : AnimationEngine × Nat)
    (hexit : AnimationEngine.runAnimationLoop env fuel e stopChan deviceName animName = some out)
    (hown : stopChan = e.stopChan) :
    out = ({ e with isRunning := false, current := "" }, 1) := by
  unfold AnimationEngine.runAnimationLoop at hexit
  split at hexit
  · have h2 := Option.some.inj hexit
    rw [← h2]
    unfold AnimationEngine.handleLoopExit
    rw [if_pos hown]
  · exact Option.noConfusion hexit

/-- C2 witness: the task on channel 7 exits while the engine still
stores channel 7; the state is cleared and `ResetPose` runs once. -/
theorem C2_witness :
    AnimationEngine.runAnimationLoop envStopNow 1 engineSample 7 "h1" "wave" =
      some ({ animations := ["wave"], stopChan := 7, current := "", isRunning := false,
              nextChan := 8, closed := [] }, 1) := by
  have h := C2_owner_exit_resets_once envStopNow 1 engineSample 7 "h1" "wave"
    (engineSample.handleLoopExit 7 "h1" "wave") rfl rfl
  have h2 : AnimationEngine.runAnimationLoop envStopNow 1 engineSample 7 "h1" "wave" =
      some (engineSample.handleLoopExit 7 "h1" "wave") := rfl
  rw [h2, h]
  rfl

/-- C6: `Stop` with nothing running is a no-op (it returns nil in Go and
changes no engine state), `Stop` is idempotent across repeated calls,
and `Stop` on a running engine immediately clears the running flag and
the current animation name. -/
theorem C6_stop_noop_idempotent :
    (∀ e : AnimationEngine, e.isRunning = false → e.Stop = e) ∧
    (∀ e : AnimationEngine, e.Stop.Stop = e.Stop) ∧
    (∀ e : AnimationEngine, e.isRunning = true →
      e.Stop.isRunning = false ∧ e.Stop.current = "") :=
  ⟨fun e h => Stop_of_not_running e h,
   fun e => Stop_of_not_running e.Stop (Stop_isRunning e),
   fun e h => ⟨Stop_isRunning e, by
     unfold AnimationEngine.Stop
     rw [if_neg (by simp [h])]⟩⟩

/-- C6 witness: `Stop` at an idle engine and at a running engine. -/
theorem C6_witness :
    engineIdle.Stop = engineIdle ∧
    engineSample.Stop.Stop = engineSample.Stop ∧
    (engineSample.Stop.isRunning = false ∧ engineSample.Stop.current = "") :=
  ⟨C6_stop_noop_idempotent.1 engineIdle rfl,
   C6_stop_noop_idempotent.2.1 engineSample,
   C6_stop_noop_idempotent.2.2 engineSample rfl⟩

/-- C10: `CreateDevice` with an unregistered model tag fails with the
unknown-model error and leaves the constructor table untouched; with a
registered tag it invokes that tag's constructor on the config bag. -/
theorem C10_create_device (Cfg Dev : Type) (f : DeviceFactory Cfg Dev)
    (modelName : String) (config : Cfg) :
    (f.constructors.lookup modelName = none →
      CreateDevice f modelName config =
        (f, Except.error ("未知的设备型号: " ++ modelName))) ∧
    (∀ constructor, f.constructors.lookup modelName = some constructor →
      CreateDevice f modelName config = (f, constructor config)) := by
  constructor
  · intro hnone
    unfold CreateDevice
    rw [hnone]
  · intro constructor hsome
    unfold CreateDevice
    rw [hsome]

/-- C10 witness: an empty factory rejects "X"; a factory with an "L10"
constructor invokes it. -/
theorem C10_witness :
    CreateDevice (⟨[]⟩ : DeviceFactory Nat Nat) "X" 0 =
      (⟨[]⟩, Except.error ("未知的设备型号: " ++ "X")) ∧
    CreateDevice (⟨[("L10", fun c => Except.ok (c + 1))]⟩ : DeviceFactory Nat Nat) "L10" 4 =
      (⟨[("L10", fun c => Except.ok (c + 1))]⟩, Except.ok 5) :=
  ⟨(C10_create_device Nat Nat ⟨[]⟩ "X" 0).1 rfl,
   (C10_create_device Nat Nat ⟨[("L10", fun c => Except.ok (c + 1))]⟩ "L10" 4).2
     (fun c => Except.ok (c + 1)) rfl⟩

/-- C3: for every 6-byte input pose (and per-byte random draws), a
ready L10 device's `SetFingerPose` hands the Communicator exactly one
wire message whose data is the finger opcode 0x01 followed by the 6
perturbed bytes, each within 5 of the corresponding input byte and
within [0, 255]. -/
theorem C3_finger_pose_wire_format (h : L10Hand) (pose rs : List Nat)
    (sendResult : RawMessage → Option String) (now : Nat)
    (hc : h.status.IsConnected = true) (ha : h.status.IsActive = true)
    (hp : pose.length = 6) (hr : rs.length = 6)
    (hb : ∀ b ∈ pose, b ≤ 255) :
    ∃ msg : RawMessage,
      (h.SetFingerPose pose rs sendResult now).sent = [msg] ∧
      msg.Data = 0x01 :: List.zipWith (fun v r => perturb v 5 r) pose rs ∧
      List.Forall₂ (fun p d => d ≤ 255 ∧ d ≤ p + 5 ∧ p ≤ d + 5) pose msg.Data.tail := by
  have hlen : (List.zipWith (fun v r => perturb v 5 r) pose rs).length = 6 := by
    simp [List.length_zipWith, hp, hr]
  refine ⟨{ Interface := h.canInterface, ID := h.handType.val,
            Data := 0x01 :: List.zipWith (fun v r => perturb v 5 r) pose rs }, ?_, rfl, ?_⟩
  · have henc : h.commandToRawMessage
        (NewFingerPoseCommand "all" (List.zipWith (fun v r => perturb v 5 r) pose rs)) =
        Except.ok { Interface := h.canInterface, ID := h.handType.val,
                    Data := 0x01 :: List.zipWith (fun v r => perturb v 5 r) pose rs } := by
      unfold L10Hand.commandToRawMessage NewFingerPoseCommand
      simp [hlen]
    unfold L10Hand.SetFingerPose
    rw [if_neg (by simp [hp])]
    exact ExecuteCommand_sent_of_ok h _ sendResult now _ hc ha henc
  · exact forall2_perturb_close pose rs (by rw [hp, hr]) hb

/-- C3 witness: the half-open pose on the connected right hand, with
explicit random draws 0..5. -/
theorem C3_witness :
    ∃ msg : RawMessage,
      (handConn.SetFingerPose [64, 64, 64, 64, 64, 64] [0, 1, 2, 3, 4, 5] sendOk 9).sent = [msg] ∧
      msg.Data = 0x01 :: List.zipWith (fun v r => perturb v 5 r)
        [64, 64, 64, 64, 64, 64] [0, 1, 2, 3, 4, 5] ∧
      List.Forall₂ (fun p d => d ≤ 255 ∧ d ≤ p + 5 ∧ p ≤ d + 5)
        [64, 64, 64, 64, 64, 64] msg.Data.tail :=
  C3_finger_pose_wire_format handConn [64, 64, 64, 64, 64, 64] [0, 1, 2, 3, 4, 5]
    sendOk 9 rfl rfl rfl rfl (by decide)

/-- C4: every successfully encoded wire message carries the numeric id
of the device's hand side as read at encode time — under the
`define/hands.go` mapping Left = 0x28, Right = 0x27, Unknown = 0x00 —
and after `SetHandType` the next encoded message carries the new
hand side's id. -/
theorem C4_wire_id_from_current_hand :
    (HandType.LEFT.val = 0x28 ∧ HandType.RIGHT.val = 0x27 ∧ HandType.UNKNOWN.val = 0x00) ∧
    (∀ (h : L10Hand) (cmd : Command) (msg : RawMessage),
      h.commandToRawMessage cmd = Except.ok msg → msg.ID = h.handType.val) ∧
    (∀ (h : L10Hand) (ht : HandType) (h2 : L10Hand) (cmd : Command) (msg : RawMessage),
      h.SetHandType ht = Except.ok h2 → h2.commandToRawMessage cmd = Except.ok msg →
      msg.ID = ht.val) :=
  ⟨⟨rfl, rfl, rfl⟩,
   fun h cmd msg henc => commandToRawMessage_ok_ID h cmd msg henc,
   fun h ht h2 cmd msg hset henc => by
     rw [commandToRawMessage_ok_ID h2 cmd msg henc, SetHandType_ok h ht h2 hset]⟩

/-- C4 witness: the right hand encodes id 0x27; after switching to the
left hand the same command encodes id 0x28. -/
theorem C4_witness :
    msgRight.ID = handConn.handType.val ∧ msgLeft.ID = HandType.LEFT.val :=
  ⟨C4_wire_id_from_current_hand.2.1 handConn fingerCmdSample msgRight rfl,
   C4_wire_id_from_current_hand.2.2 handConn HandType.LEFT handLeftSample
     fingerCmdSample msgLeft rfl rfl⟩

/-- C5 counterexample: on a connected, active device, an encoding
failure does leave the Communicator untouched, but it does NOT leave
the device status unchanged — the error count is bumped (and the last
error recorded), refuting the claim as stated. -/
theorem C5_counterexample :
    (handConn.commandToRawMessage badCmd).isOk = false ∧
    (handConn.ExecuteCommand badCmd sendOk 9).sent = [] ∧
    (handConn.ExecuteCommand badCmd sendOk 9).hand.status.ErrorCount =
      handConn.status.ErrorCount + 1 ∧
    (handConn.ExecuteCommand badCmd sendOk 9).hand.status ≠ handConn.status := by
  refine ⟨rfl, rfl, rfl, ?_⟩
  decide

/-- C5 (amended): on a connected, active device, if encoding fails the
Communicator is never invoked and the last-update timestamp is
unchanged, but the error count is incremented by one and the encoding
error is recorded as the last error. -/
theorem C5_encode_failure_records_error (h : L10Hand) (cmd : Command)
    (sr : RawMessage → Option String) (now : Nat) (e : String)
    (hc : h.status.IsConnected = true) (ha : h.status.IsActive = true)
    (henc : h.commandToRawMessage cmd = Except.error e) :
    h.ExecuteCommand cmd sr now =
      { hand := { h with status :=
          { h.status with ErrorCount := h.status.ErrorCount + 1, LastError := e } },
        sent := [], result := some ("转换指令失败：" ++ e) } ∧
    (h.ExecuteCommand cmd sr now).hand.status.LastUpdate = h.status.LastUpdate := by
  have hmain := ExecuteCommand_encode_error h cmd sr now e hc ha henc
  exact ⟨hmain, by rw [hmain]⟩

/-- C5 witness: the unsupported command on the connected hand. -/
theorem C5_witness :
    handConn.ExecuteCommand badCmd sendOk 9 =
      { hand := { id := "h1", model := "L10", handType := HandType.RIGHT, canInterface := "can0",
                  status := { IsConnected := true, IsActive := true, LastUpdate := 0,
                              ErrorCount := 1, LastError := "L10 不支持的指令类型: Nope" } },
        sent := [], result := some "转换指令失败：L10 不支持的指令类型: Nope" } ∧
    (handConn.ExecuteCommand badCmd sendOk 9).hand.status.LastUpdate =
      handConn.status.LastUpdate :=
  C5_encode_failure_records_error handConn badCmd sendOk 9
    "L10 不支持的指令类型: Nope" rfl rfl rfl

/-- C6 is above; C7: any command on a device that is not connected or
not active is rejected with the not-ready error, no message reaches the
Communicator and the device state is unchanged. -/
theorem C7_not_ready_rejects (h : L10Hand) (cmd : Command)
    (sr : RawMessage → Option String) (now : Nat)
    (hne : h.status.IsConnected = false ∨ h.status.IsActive = false) :
    h.ExecuteCommand cmd sr now =
      { hand := h, sent := [], result := some ("设备 " ++ h.id ++ " 未连接或未激活") } :=
  ExecuteCommand_not_ready h cmd sr now hne

/-- C7 witness: the disconnected hand rejects the finger command. -/
theorem C7_witness :
    handDisc.ExecuteCommand fingerCmdSample sendOk 9 =
      { hand := handDisc, sent := [], result := some "设备 h1 未连接或未激活" } :=
  C7_not_ready_rejects handDisc fingerCmdSample sendOk 9 (Or.inl rfl)

/-- C8: the L10 encoder fails iff the command type is neither
"SetFingerPose" nor "SetPalmPose", or the opcode-prefixed data exceeds
the 8-byte wire limit; otherwise the message data is the opcode (0x01
finger / 0x04 palm) prepended to the payload. -/
theorem C8_encoder_ok_iff (h : L10Hand) (cmd : Command) :
    ((h.commandToRawMessage cmd).isOk = false ↔
      ((cmd.type ≠ "SetFingerPose" ∧ cmd.type ≠ "SetPalmPose") ∨
        8 < cmd.payload.length + 1)) ∧
    (∀ msg, h.commandToRawMessage cmd = Except.ok msg →
      msg.Data = (if cmd.type = "SetFingerPose" then 0x01 else 0x04) :: cmd.payload) :=
  ⟨commandToRawMessage_isOk_false_iff h cmd,
   fun msg hmsg => commandToRawMessage_ok_Data h cmd msg hmsg⟩

/-- C8 witness: the unsupported command fails; the finger command's
encoded data is opcode plus payload. -/
theorem C8_witness :
    (handConn.commandToRawMessage badCmd).isOk = false ∧
    msgRight.Data =
      (if fingerCmdSample.type = "SetFingerPose" then 0x01 else 0x04) :: fingerCmdSample.payload :=
  ⟨(C8_encoder_ok_iff handConn badCmd).1.mpr (Or.inl (by decide)),
   (C8_encoder_ok_iff handConn fingerCmdSample).2 msgRight rfl⟩

/-- C9: on a ready device with a successfully encoded command, a failed
send increments the error count by one, records the failure as last
error, returns the wrapped error and leaves the last-update timestamp
unchanged; a successful send stamps the last-update timestamp and
leaves the error count and last error unchanged. -/
theorem C9_send_outcome_status (h : L10Hand) (cmd : Command)
    (sr : RawMessage → Option String) (now : Nat) (msg : RawMessage)
    (hc : h.status.IsConnected = true) (ha : h.status.IsActive = true)
    (henc : h.commandToRawMessage cmd = Except.ok msg) :
    (∀ e, sr msg = some e →
      h.ExecuteCommand cmd sr now =
        { hand := { h with status :=
            { h.status with ErrorCount := h.status.ErrorCount + 1, LastError := e } },
          sent := [msg], result := some ("发送指令失败：" ++ e) }) ∧
    (sr msg = none →
      h.ExecuteCommand cmd sr now =
        { hand := { h with status := { h.status with LastUpdate := now } },
          sent := [msg], result := none }) :=
  ⟨fun e hs => ExecuteCommand_send_fail h cmd sr now msg e hc ha henc hs,
   fun hs => ExecuteCommand_send_ok h cmd sr now msg hc ha henc hs⟩

/-- C9 witness: the finger command on the connected hand, once against
a failing transport and once against a succeeding one. -/
theorem C9_witness :
    handConn.ExecuteCommand fingerCmdSample sendFailFn 9 =
      { hand := { id := "h1", model := "L10", handType := HandType.RIGHT, canInterface := "can0",
                  status := { IsConnected := true, IsActive := true, LastUpdate := 0,
                              ErrorCount := 1, LastError := "boom" } },
        sent := [msgRight], result := some "发送指令失败：boom" } ∧
    handConn.ExecuteCommand fingerCmdSample sendOk 9 =
      { hand := { id := "h1", model := "L10", handType := HandType.RIGHT, canInterface := "can0",
                  status := { IsConnected := true, IsActive := true, LastUpdate := 9,
                              ErrorCount := 0, LastError := "" } },
        sent := [msgRight], result := none } :=
  ⟨(C9_send_outcome_status handConn fingerCmdSample sendFailFn 9 msgRight rfl rfl rfl).1
     "boom" rfl,
   (C9_send_outcome_status handConn fingerCmdSample sendOk 9 msgRight rfl rfl rfl).2 rfl⟩

end Hands
